import Mathlib

/-!
# Shallow embedding of the go-sasl mechanism-selection engine and GSSAPI state machine

This file embeds, definition by definition, the core of the `golang-auth/go-sasl`
repository: the strength/property bit vocabulary (`common/secprops.go`,
`common/features.go`), the error taxonomy (`common/errors.go`), the mechanism
registry (`registry/registry.go`), the selection engine (`sasl.go`, `Start`),
and the GSSAPI handshake state machine (`gssapi.go`).

Go machine integers are embedded as `Nat`; Go `uint` is 64 bits wide, so the one
place where unsigned wrap-around can occur (the addition
`channelSSF + m.config.ExternalSSF` in `stepSSFCap`) carries an explicit
`% 2^64`.  Go byte slices are `List Nat` whose elements represent `uint8`
values; reads of `[]byte` elements are normalised with `% 256`.  A Go `nil`
slice is distinguished from an empty slice by `Option (List Nat)`.
The external GSSAPI security context (package `go-gssapi`, out of scope of this
repository) is an abstract state type `γ` together with an interface record of
pure functions, mirroring the collaborator operations the core invokes.
-/

namespace GoSasl

/-! ## common/secprops.go — SecurityFlag constants (uint32 bitmask) -/

def SecNoPlainText : Nat := 1
def SecNoActive : Nat := 2
def SecNoDictionary : Nat := 4
def SecForwardSecrecy : Nat := 8
def SecNoAnonymous : Nat := 16
def SecPassCredentials : Nat := 32
def SecMutualAuth : Nat := 64

/-! ## common/features.go — Feature constants (uint32 bitmask) -/

def FeatNeedServerFQDN : Nat := 1
def FeatWantClientFirst : Nat := 2
def FeatServerFirst : Nat := 4
def FeatDontUseUserPassword : Nat := 8
def FeatGSSFraming : Nat := 16
def FeatSupportsHTTP : Nat := 32
def FeatChannelBindings : Nat := 64

/-- Modulus of the Go `uint` type (64-bit on all platforms this repo targets). -/
def uintMod : Nat := 18446744073709551616

/-- `^uint(0)`, the default `maxSSF` set by `NewSaslClient`. -/
def uintMax : Nat := uintMod - 1

/-! ## common/errors.go and the error values produced by the core

Go returns `error` values; the distinct error values of the repository are
embedded as constructors.  Errors produced by the external GSSAPI collaborator
(an opaque `error` from another package) are carried by `external`. -/

inductive SaslErr where
  | NoMech                                      -- common.ErrNoMech
  | NotStarted                                  -- common.ErrNotStarted
  | AlreadyEstablished                          -- common.ErrAlreadyEstablished
  | NotEstablished                              -- common.ErrNotEstablished
  | TooWeak (MechSSF ExtSSF RequiredSSF : Nat)  -- common.ErrTooWeak{...}
  | MissingServerFQDN                           -- gssapi.go "server FQDN not provided"
  | BadToken (nbytes : Nat)                     -- gssapi.go "bad SSF negotiate token (%d bytes, wanted 4)"
  | NoSecurityLayer                             -- gssapi.go "no suitable security layer available" / encode/decode "no security layer negotiated"
  | external (msg : String)                     -- error from the go-gssapi collaborator
deriving DecidableEq, Repr

/-! ## common/mech.go — descriptor, parameters and per-session configuration -/

/-- `common.MechProps` (the field name `Fearures` keeps the source's spelling). -/
structure MechProps where
  MaxSSF : Nat
  SecurityProperties : Nat
  Fearures : Nat
deriving DecidableEq, Repr

/-- `common.ContextParams`. -/
structure ContextParams where
  SSF : Nat
  MaxPeerMessageSize : Nat
deriving DecidableEq, Repr

/-- `common.ChannelBinding` (only the fields the core consults). -/
structure ChannelBinding where
  Data : List Nat
  Critical : Bool
deriving DecidableEq, Repr

/-- `common.MechConfig` (the `Logger` field is log-only and omitted). -/
structure MechConfig where
  Service : String
  ServerFQDN : String
  MinSSF : Nat
  MaxSSF : Nat
  MaxBufSize : Nat
  ExternalSSF : Nat
  SecProps : Nat
  HTTPMode : Bool
  ExtraProps : List (String × String)
  ChannelBinding : Option ChannelBinding
deriving DecidableEq, Repr

/-! ## registry/registry.go

The registry is a Go `map[string]mech`; we embed the value part that selection
consults (`properties`) as an association list keyed by mechanism name. -/

def Registry := List (String × MechProps)

/-- `registry.IsRegistered`. -/
def IsRegistered (reg : Registry) (name : String) : Bool :=
  (List.lookup name reg).isSome

/-- `registry.Properties`: the registered descriptor, or the zero value
`common.MechProps{}` for an unknown name. -/
def Properties (reg : Registry) (name : String) : MechProps :=
  match List.lookup name reg with
  | some m => m
  | none => ⟨0, 0, 0⟩

/-- `registry.Mechs` iterates the Go map with `for name := range mechs` and
appends each visited key.  The iteration order of a Go map range is
unspecified (and deliberately randomised by the runtime), so the set of
possible return values is every permutation of the key set: `MechsCanReturn
keys l` holds iff `l` is a possible result of one `Mechs()` invocation over a
registry whose key set is (in some order) `keys`. -/
def MechsCanReturn (keys : List String) (l : List String) : Prop :=
  List.Perm l keys

instance (keys l : List String) : Decidable (MechsCanReturn keys l) :=
  inferInstanceAs (Decidable (List.Perm l keys))

/-! ## sasl.go — the client session and the selection engine -/

/-- The selection-relevant fields of `sasl.SaslClient` (`extSSF` is
`extProps.ssf`; loggers are omitted). -/
structure SaslClient where
  service : String
  mechList : List String
  serverFQDN : String
  minSSF : Nat
  maxSSF : Nat
  maxBufSize : Nat
  secProps : Nat
  extSSF : Nat
  needHTTP : Bool
  channelBindings : Option ChannelBinding
  extraProps : List (String × String)
deriving Repr

/-- The defaults installed by `NewSaslClient` before options run. -/
def defaultClient (service : String) : SaslClient where
  service := service
  mechList := []
  serverFQDN := ""
  minSSF := 0
  maxSSF := uintMax
  maxBufSize := 65536
  secProps := SecNoAnonymous ||| SecNoPlainText
  extSSF := 0
  needHTTP := false
  channelBindings := none
  extraProps := []

/-- `sasl.supportsChannelBindings`: the loop with early `break` is `List.any`. -/
def supportsChannelBindings (reg : Registry) (mechList : List String) : Bool :=
  mechList.any fun mech => (Properties reg mech).Fearures &&& FeatChannelBindings > 0

inductive CBDisp where
  | dispNone
  | dispWant
  | dispMust
deriving DecidableEq, Repr

/-- `sasl.(*SaslClient).channelBindingDisposition` (port of Cyrus SASL
`_sasl_cbinding_disp`). -/
def channelBindingDisposition (reg : Registry) (c : SaslClient) :
    Except SaslErr CBDisp :=
  match c.channelBindings with
  | none => .ok .dispNone
  | some cb =>
    if c.mechList.length > 0 then
      if !supportsChannelBindings reg c.mechList && cb.Critical then
        .error .NoMech
      else
        .ok .dispWant
    else if cb.Critical then
      .ok .dispMust
    else
      .ok .dispNone

/-- The residual minimum SSF computed at the top of `Start`:
`if c.minSSF < c.extProps.ssf { minSSF = 0 } else { minSSF = c.minSSF - c.extProps.ssf }`. -/
def neededSSF (c : SaslClient) : Nat :=
  if c.minSSF < c.extSSF then 0 else c.minSSF - c.extSSF

/-- The per-candidate required property set of `Start`:
`wantSecProps := c.secProps`, then `wantSecProps &^= common.SecNoPlainText`
when `c.extProps.ssf > c.minSSF && c.extProps.ssf > 1`.  Go's `&^` (AND-NOT)
is written with the identity `a &^ b = a ^^^ (a &&& b)`. -/
def wantSecProps (c : SaslClient) : Nat :=
  if c.extSSF > c.minSSF && c.extSSF > 1 then
    c.secProps ^^^ (c.secProps &&& SecNoPlainText)
  else
    c.secProps

/-- The filter body of the selection loop in `Start` (sasl.go): each `continue`
is a rejection, so a candidate is kept iff none of the five rejections fires. -/
def mechOK (reg : Registry) (c : SaslClient) (disp : CBDisp) (mech : String) : Bool :=
  let mechProps := Properties reg mech
  if neededSSF c > mechProps.MaxSSF then false
  else if ((wantSecProps c ^^^ mechProps.SecurityProperties) &&& wantSecProps c) ≠ 0 then false
  else if disp = CBDisp.dispMust && mechProps.Fearures &&& FeatChannelBindings = 0 then false
  else if mechProps.Fearures &&& FeatNeedServerFQDN ≠ 0 && c.serverFQDN = "" then false
  else if c.needHTTP && mechProps.Fearures &&& FeatSupportsHTTP = 0 then false
  else true

/-- The selection loop of `Start`: `chosenMech` starts as the empty string and
the loop breaks at the first candidate passing all filters. -/
def findMech (reg : Registry) (c : SaslClient) (disp : CBDisp) :
    List String → String
  | [] => ""
  | mech :: rest =>
    if mechOK reg c disp mech then mech else findMech reg c disp rest

/-- The selection portion of `sasl.(*SaslClient).Start`: compute the
channel-binding disposition, run the loop, and fail with `ErrNoMech` when
`chosenMech == ""`.  (The subsequent instance construction and first `Step`
are not part of selection.) -/
def startSelect (reg : Registry) (c : SaslClient) : Except SaslErr String :=
  match channelBindingDisposition reg c with
  | .error e => .error e
  | .ok disp =>
    let chosenMech := findMech reg c disp c.mechList
    if chosenMech = "" then .error .NoMech else .ok chosenMech

/-! ## gssapi.go — the GSSAPI mechanism and its three-state handshake

The descriptor registered by the package `init`:
`MaxSSF: 256, SecurityProperties: SecNoPlainText|SecNoActive|SecNoAnonymous|SecMutualAuth|SecPassCredentials,
Fearures: FeatNeedServerFQDN|FeatWantClientFirst|FeatChannelBindings`. -/

def gssapiProps : MechProps where
  MaxSSF := 256
  SecurityProperties :=
    SecNoPlainText ||| SecNoActive ||| SecNoAnonymous ||| SecMutualAuth ||| SecPassCredentials
  Fearures := FeatNeedServerFQDN ||| FeatWantClientFirst ||| FeatChannelBindings

/-- `qop` bit values (`layerNone = 1 << iota`, ...). -/
def layerNone : Nat := 1
def layerIntegrity : Nat := 2
def layerConfidentiality : Nat := 4

/-- The `state` enumeration (`stateAuthenticating state = iota`, ...). -/
inductive HState where
  | stateAuthenticating
  | stateSSFCap
  | stateAuthenticated
deriving DecidableEq, Repr

/-- The numeric value of each `state` constant (`iota`). -/
def stateRank : HState → Nat
  | .stateAuthenticating => 0
  | .stateSSFCap => 1
  | .stateAuthenticated => 2

/-- go-gssapi `ContextFlag` constants used by the core (standard RFC 2744
request-flag bit values of the external collaborator package). -/
def ContextFlagMutual : Nat := 2
def ContextFlagSequence : Nat := 8
def ContextFlagConf : Nat := 16
def ContextFlagInteg : Nat := 32

/-- The external GSSAPI security context collaborator (`gssapi.Mech` of the
go-gssapi package), abstracted over its internal state `γ`.  `Continue`
mutates the context and returns `(outToken, err)` — both are returned even
when `err` is non-nil, so `cont` yields a triple rather than an `Except`.
The channel-binding argument of `initiate` is the converted `Data` buffer. -/
structure GssIface (γ : Type) where
  initiate : γ → String → Nat → Option (List Nat) → Except String γ
  cont : γ → List Nat → Option (List Nat) × Option String × γ
  isEstablished : γ → Bool
  contextFlags : γ → Nat
  unwrap : γ → Option (List Nat) → Except String (List Nat × Bool)
  wrap : γ → List Nat → Bool → Except String (List Nat)
  ssf : γ → Nat
  wrapSizeLimit : γ → Nat → Bool → Nat

/-- The mutable fields of `gssapi.GSSAPIMech` (logger omitted). -/
structure GSSAPIMech (γ : Type) where
  config : MechConfig
  client : γ
  qop : Nat
  ssf : Nat
  state : HState
  maxOutputBufferSz : Nat
deriving Repr

/-- The outcome of one `Step` call on a `*GSSAPIMech`: the returned
`(outToken, err)` pair together with the mechanism state after the call
(pointer-receiver mutation made explicit). -/
structure StepResult (γ : Type) where
  outTok : Option (List Nat)
  err : Option SaslErr
  mech : GSSAPIMech γ
deriving Repr

/-- `gssapi.isTrue`. -/
def isTrue (val : String) : Bool :=
  val = "1" || val = "y" || val = "on" || val = "t"

/-- `gssapi.minUint`. -/
def minUint (a b : Nat) : Nat :=
  if a < b then a else b

/-- The tail of `stepAuthenticating` shared by both entry paths:
`outToken, err = m.client.Continue(inToken)` followed by the
`IsEstablished` transition logic. -/
def finishAuthenticating {γ : Type} (iface : GssIface γ) (m : GSSAPIMech γ)
    (inToken : List Nat) : StepResult γ :=
  let r := iface.cont m.client inToken
  let outToken := r.1
  let contErr := r.2.1
  let m1 : GSSAPIMech γ := { m with client := r.2.2 }
  if iface.isEstablished m1.client then
    if m1.config.HTTPMode then
      ⟨outToken, contErr.map SaslErr.external, { m1 with state := .stateAuthenticated }⟩
    else
      let outToken2 := match outToken with
        | none => some []
        | some t => some t
      ⟨outToken2, contErr.map SaslErr.external, { m1 with state := .stateSSFCap }⟩
  else
    ⟨outToken, contErr.map SaslErr.external, m1⟩

/-- `gssapi.(*GSSAPIMech).stepAuthenticating`.  The `inToken == nil` branch
requires a server FQDN, computes the requested context flags, converts the
channel binding and initiates the external context before falling through to
`Continue` with an empty token. -/
def stepAuthenticating {γ : Type} (iface : GssIface γ) (m : GSSAPIMech γ)
    (inToken : Option (List Nat)) : StepResult γ :=
  match inToken with
  | some tok => finishAuthenticating iface m tok
  | none =>
    if m.config.ServerFQDN.length = 0 then
      ⟨none, some .MissingServerFQDN, m⟩
    else
      let princName := m.config.Service ++ "/" ++ m.config.ServerFQDN
      let flags :=
        if m.config.MaxSSF > m.config.ExternalSSF then
          ContextFlagMutual ||| ContextFlagSequence ||| ContextFlagInteg |||
            (if m.config.MaxSSF - m.config.ExternalSSF > 1 then ContextFlagConf else 0)
        else
          ContextFlagMutual ||| ContextFlagSequence
      let gsscb := m.config.ChannelBinding.map fun cb => cb.Data
      match iface.initiate m.client princName flags gsscb with
      | .error e => ⟨none, some (.external e), m⟩
      | .ok client1 =>
        let q :=
          if iface.contextFlags client1 &&& ContextFlagInteg = 0 then
            layerNone
          else if iface.contextFlags client1 &&& ContextFlagConf = 0 then
            layerNone ||| layerIntegrity
          else
            layerNone ||| layerIntegrity ||| layerConfidentiality
        finishAuthenticating iface { m with client := client1, qop := q } []

/-- The quality-of-protection arbitration `switch` of `stepSSFCap`
(gssapi.go): returns the chosen `qopChoice` and the negotiated `ssf`, or
`none` for the `default` branch ("no suitable security layer available").
The `ad_compat` carve-out adds the integrity bit when confidentiality wins. -/
def chooseQOP (cfg : MechConfig) (localQOP serverQOPOffer channelSSF allowedSSF needSSF : Nat) :
    Option (Nat × Nat) :=
  if localQOP &&& layerConfidentiality > 0 && serverQOPOffer &&& layerConfidentiality > 0
      && allowedSSF ≥ channelSSF && needSSF ≤ channelSSF then
    let qopChoice :=
      match List.lookup "ad_compat" cfg.ExtraProps with
      | some val => if isTrue val then layerConfidentiality ||| layerIntegrity
                    else layerConfidentiality
      | none => layerConfidentiality
    some (qopChoice, channelSSF)
  else if localQOP &&& layerIntegrity > 0 && serverQOPOffer &&& layerIntegrity > 0
      && allowedSSF ≥ 1 && needSSF ≤ 2 then
    some (layerIntegrity, 1)
  else if localQOP &&& layerNone > 0 && serverQOPOffer &&& layerNone > 0 && needSSF ≤ 0 then
    some (layerNone, 0)
  else
    none

/-- The peer buffer-size decode of `stepSSFCap`, with Go's parse of
`uint32(data[1])<<16 | uint32(data[2])<<8 + uint32(data[3])`: `|` and `+`
share a precedence level and associate left, so this is
`((b1 << 16) | (b2 << 8)) + b3`. -/
def decodeBufSize (b1 b2 b3 : Nat) : Nat :=
  ((b1 <<< 16) ||| (b2 <<< 8)) + b3

/-- The 4-byte reply built at the end of `stepSSFCap`: `dataOut[0]` is the
chosen QOP; bytes 1–3 are written only when `qopChoice > 1`, from
`minUint(m.config.MaxBufSize, 0xFFFFFF)` in big-endian order. -/
def ssfCapReply (cfg : MechConfig) (qopChoice : Nat) : List Nat :=
  let rest :=
    if qopChoice > 1 then
      let mx := minUint cfg.MaxBufSize 0xFFFFFF
      [(mx >>> 16) &&& 0xff, (mx >>> 8) &&& 0xff, (mx >>> 0) &&& 0xff]
    else
      [0, 0, 0]
  qopChoice :: rest

/-- `gssapi.(*GSSAPIMech).stepSSFCap`.  The unwrapped payload is a Go
`[]byte`, so its elements are normalised to `uint8` range; the comparison
`m.config.MinSSF > channelSSF + m.config.ExternalSSF` is Go `uint`
arithmetic, hence the explicit `% uintMod` on the sum; the `uint32` field
`maxOutputBufferSz` stores `WrapSizeLimit`'s result mod `2^32`. -/
def stepSSFCap {γ : Type} (iface : GssIface γ) (m : GSSAPIMech γ)
    (inToken : Option (List Nat)) : StepResult γ :=
  match iface.unwrap m.client inToken with
  | .error e => ⟨none, some (.external e), m⟩
  | .ok (data0, _) =>
    let data := data0.map (· % 256)
    if data.length ≠ 4 then
      ⟨none, some (.BadToken data.length), m⟩
    else
      let serverQOPOffer := data.getD 0 0
      let channelSSF := iface.ssf m.client
      if m.config.MinSSF > (channelSSF + m.config.ExternalSSF) % uintMod then
        ⟨none, some (.TooWeak channelSSF m.config.ExternalSSF m.config.MinSSF), m⟩
      else
        let allowedSSF :=
          if m.config.MaxSSF ≥ m.config.ExternalSSF then
            m.config.MaxSSF - m.config.ExternalSSF
          else 0
        let needSSF :=
          if m.config.MinSSF ≥ m.config.ExternalSSF then
            m.config.MinSSF - m.config.ExternalSSF
          else 0
        match chooseQOP m.config m.qop serverQOPOffer channelSSF allowedSSF needSSF with
        | none => ⟨none, some .NoSecurityLayer, m⟩
        | some (qopChoice, newSSF) =>
          let m1 : GSSAPIMech γ := { m with ssf := newSSF }
          let sz0 := decodeBufSize (data.getD 1 0) (data.getD 2 0) (data.getD 3 0)
          let m2 : GSSAPIMech γ :=
            if newSSF > 0 then
              { m1 with maxOutputBufferSz :=
                  iface.wrapSizeLimit m1.client sz0 (newSSF > 1) % 4294967296 }
            else
              { m1 with maxOutputBufferSz := sz0 }
          let dataOut := ssfCapReply m2.config qopChoice
          match iface.wrap m2.client dataOut false with
          | .error e => ⟨none, some (.external e), m2⟩
          | .ok outToken => ⟨some outToken, none, { m2 with state := .stateAuthenticated }⟩

/-- `gssapi.(*GSSAPIMech).Step`: dispatch on the handshake state; in
`stateAuthenticated` every call fails with `ErrAlreadyEstablished`. -/
def Step {γ : Type} (iface : GssIface γ) (m : GSSAPIMech γ)
    (inToken : Option (List Nat)) : StepResult γ :=
  match m.state with
  | .stateAuthenticating => stepAuthenticating iface m inToken
  | .stateSSFCap => stepSSFCap iface m inToken
  | .stateAuthenticated => ⟨none, some .AlreadyEstablished, m⟩

/-- `gssapi.(*GSSAPIMech).IsEstablished`. -/
def mechIsEstablished {γ : Type} (m : GSSAPIMech γ) : Bool :=
  m.state = .stateAuthenticated

/-- `gssapi.(*GSSAPIMech).ContextParams`. -/
def mechContextParams {γ : Type} (m : GSSAPIMech γ) : ContextParams :=
  ⟨m.ssf, m.maxOutputBufferSz⟩

/-- `gssapi.(*GSSAPIMech).Encode`: fails when `m.ssf == 0`, else wraps with
confidentiality iff `m.ssf > 1`. -/
def mechEncode {γ : Type} (iface : GssIface γ) (m : GSSAPIMech γ)
    (input : List Nat) : Except SaslErr (List Nat) :=
  if m.ssf = 0 then
    .error .NoSecurityLayer
  else
    match iface.wrap m.client input (m.ssf > 1) with
    | .error e => .error (.external e)
    | .ok out => .ok out

/-- `gssapi.(*GSSAPIMech).Decode`: fails when `m.ssf == 0`, else unwraps. -/
def mechDecode {γ : Type} (iface : GssIface γ) (m : GSSAPIMech γ)
    (inputToken : List Nat) : Except SaslErr (List Nat) :=
  if m.ssf = 0 then
    .error .NoSecurityLayer
  else
    match iface.unwrap m.client (some inputToken) with
    | .error e => .error (.external e)
    | .ok (out, _) => .ok out

/-! ## sasl.go — session-level Encode/Decode

`SaslClient.Encode`/`Decode` consult the bound mechanism through the
`common.Mech` interface; the interface is abstracted over the mechanism's
state `μ`. -/

structure MechIface (μ : Type) where
  isEstablished : μ → Bool
  contextParams : μ → ContextParams
  encode : μ → List Nat → Except SaslErr (List Nat)
  decode : μ → List Nat → Except SaslErr (List Nat)

/-- `sasl.(*SaslClient).Encode` (`c.mech` is `none` when `Start` has not
bound a mechanism). -/
def clientEncode {μ : Type} (iface : MechIface μ) (mech : Option μ)
    (input : List Nat) : Except SaslErr (List Nat) :=
  match mech with
  | none => .error .NotStarted
  | some m =>
    if !iface.isEstablished m then
      .error .NotEstablished
    else if (iface.contextParams m).SSF = 0 then
      .ok input
    else
      iface.encode m input

/-- `sasl.(*SaslClient).Decode`. -/
def clientDecode {μ : Type} (iface : MechIface μ) (mech : Option μ)
    (inputToken : List Nat) : Except SaslErr (List Nat) :=
  match mech with
  | none => .error .NotStarted
  | some m =>
    if !iface.isEstablished m then
      .error .NotEstablished
    else if (iface.contextParams m).SSF = 0 then
      .ok inputToken
    else
      iface.decode m inputToken

/-! ## Test fixtures

`testReg` is the registry built by `TestSaslClientStart` in `sasl_test.go`
(MECH1 = A, MECH2 = B, MECH3 = C of the spec's selection examples). -/

def testReg : Registry :=
  [("MECH1", ⟨256, SecNoPlainText ||| SecNoActive ||| SecNoAnonymous ||| SecMutualAuth |||
                SecPassCredentials, FeatWantClientFirst ||| FeatDontUseUserPassword⟩),
   ("MECH2", ⟨0, SecNoAnonymous ||| SecPassCredentials, FeatWantClientFirst⟩),
   ("MECH3", ⟨10, SecNoPlainText ||| SecNoAnonymous ||| SecPassCredentials, FeatWantClientFirst⟩)]

/-- A baseline `MechConfig` for concrete instantiations. -/
def cfg0 : MechConfig where
  Service := "ldap"
  ServerFQDN := "srv.example.com"
  MinSSF := 0
  MaxSSF := 0
  MaxBufSize := 0
  ExternalSSF := 0
  SecProps := 0
  HTTPMode := false
  ExtraProps := []
  ChannelBinding := none

/-- A deterministic external-context interface over the trivial state, used to
instantiate the abstract collaborator at concrete inputs: `unwrap` returns
`payload`, `wrap` is the identity and `ssf` reports `ssfVal`. -/
def constIface (ssfVal : Nat) (payload : List Nat) : GssIface Unit where
  initiate := fun g _ _ _ => .ok g
  cont := fun g t => (some t, none, g)
  isEstablished := fun _ => true
  contextFlags := fun _ => 0
  unwrap := fun _ _ => .ok (payload, false)
  wrap := fun _ d _ => .ok d
  ssf := fun _ => ssfVal
  wrapSizeLimit := fun _ n _ => n

/-- A concrete mechanism instance over the trivial context state. -/
def mkMech (cfg : MechConfig) (qop ssf : Nat) (st : HState) : GSSAPIMech Unit where
  config := cfg
  client := ()
  qop := qop
  ssf := ssf
  state := st
  maxOutputBufferSz := 0

/-- A concrete established `common.Mech` interface over the trivial state whose
context parameters report the given SSF, used to instantiate the session-level
wrapping rule at concrete inputs. -/
def constMechIface (ssfVal : Nat) : MechIface Unit where
  isEstablished := fun _ => true
  contextParams := fun _ => ⟨ssfVal, 0⟩
  encode := fun _ _ => .error (.external "encode called")
  decode := fun _ _ => .error (.external "decode called")

end GoSasl

namespace GoSasl

/-! ## Supporting lemmas -/

theorem mulPow_or (n : Nat) : ∀ a b : Nat, b < 2 ^ n → a * 2 ^ n ||| b = a * 2 ^ n + b := by
  induction n with
  | zero =>
    intro a b h
    have hb0 : b = 0 := Nat.lt_one_iff.mp h
    simp [hb0]
  | succ n ih =>
    intro a b h
    have hb2 : b / 2 < 2 ^ n := by
      have h2 : (2 : Nat) ^ (n + 1) = 2 ^ n * 2 := pow_succ 2 n
      omega
    have h1 : a * 2 ^ (n + 1) = Nat.bit false (a * 2 ^ n) := by
      rw [Nat.bit_val, pow_succ]
      simp
      ring
    have hmod := Nat.mod_two_of_bodd b
    have hdm := Nat.div_add_mod b 2
    have hA : a * 2 ^ (n + 1) = a * 2 ^ n * 2 := by rw [pow_succ]; ring
    calc a * 2 ^ (n + 1) ||| b
        = Nat.bit false (a * 2 ^ n) ||| Nat.bit b.bodd b.div2 := by rw [h1, Nat.bit_decomp]
      _ = Nat.bit (false || b.bodd) (a * 2 ^ n ||| b.div2) := Nat.lor_bit _ _ _ _
      _ = Nat.bit b.bodd (a * 2 ^ n + b.div2) := by
            rw [Bool.false_or, ih a b.div2 (by rw [Nat.div2_val]; exact hb2)]
      _ = a * 2 ^ (n + 1) + b := by
            rw [Nat.bit_val, Nat.div2_val, hA]
            cases hb : b.bodd <;> rw [hb] at hmod <;> simp at hmod ⊢ <;> omega

theorem findMech_eq_none (reg : Registry) (c : SaslClient) (disp : CBDisp) :
    ∀ l : List String, (∀ x ∈ l, mechOK reg c disp x = false) → findMech reg c disp l = "" := by
  intro l
  induction l with
  | nil => intro _; rfl
  | cons a t ih =>
    intro hall
    have ha : mechOK reg c disp a = false := hall a (by simp)
    simp only [findMech, ha, Bool.false_eq_true, if_false]
    exact ih fun x hx => hall x (by simp [hx])

theorem findMech_eq_some (reg : Registry) (c : SaslClient) (disp : CBDisp) :
    ∀ (l : List String) (m : String),
      l.find? (mechOK reg c disp) = some m → findMech reg c disp l = m := by
  intro l
  induction l with
  | nil => intro m hf; simp [List.find?] at hf
  | cons a t ih =>
    intro m hf
    by_cases h : mechOK reg c disp a
    · rw [List.find?_cons_of_pos _ h] at hf
      cases hf
      simp [findMech, h]
    · rw [List.find?_cons_of_neg _ (by simp [h])] at hf
      simp [findMech, h, ih m hf]

theorem find?_append_false {α : Type} (p : α → Bool) :
    ∀ (pre l : List α), (∀ x ∈ pre, p x = false) → (pre ++ l).find? p = l.find? p := by
  intro pre
  induction pre with
  | nil => intro l _; rfl
  | cons a t ih =>
    intro l hall
    have ha : p a = false := hall a (by simp)
    rw [List.cons_append, List.find?_cons_of_neg _ (by simp [ha])]
    exact ih l fun x hx => hall x (by simp [hx])

/-- **C1**: `Start` selects the first (lowest-index) candidate passing all
filters — the selection is `List.find?` over the filter conjunction — and
fails with `NoMechanism` when none passes; with the test registry, candidate
order `[MECH1,MECH2,MECH3]` selects MECH1 while `[MECH2,MECH3,MECH1]`
selects MECH3, so reordering changes the outcome as the spec's examples
describe. -/
theorem start_selects_first_passing_candidate
    (reg : Registry) (c : SaslClient) (disp : CBDisp)
    (hdisp : channelBindingDisposition reg c = Except.ok disp)
    (hne : "" ∉ c.mechList) :
    (startSelect reg c =
      match c.mechList.find? (mechOK reg c disp) with
      | some mech => Except.ok mech
      | none => Except.error SaslErr.NoMech)
    ∧ (∀ pre mech post,
        c.mechList = pre ++ mech :: post →
        mechOK reg c disp mech = true →
        (∀ x ∈ pre, mechOK reg c disp x = false) →
        startSelect reg c = Except.ok mech)
    ∧ startSelect testReg
        { defaultClient "imap" with mechList := ["MECH1", "MECH2", "MECH3"] } =
        Except.ok "MECH1"
    ∧ startSelect testReg
        { defaultClient "imap" with mechList := ["MECH2", "MECH3", "MECH1"] } =
        Except.ok "MECH3" := by
  have hmain : startSelect reg c =
      match c.mechList.find? (mechOK reg c disp) with
      | some mech => Except.ok mech
      | none => Except.error SaslErr.NoMech := by
    cases hf : c.mechList.find? (mechOK reg c disp) with
    | none =>
      have hall : ∀ x ∈ c.mechList, mechOK reg c disp x = false :=
        fun x hx => Bool.eq_false_iff.mpr (List.find?_eq_none.mp hf x hx)
      simp only [startSelect, hdisp, findMech_eq_none reg c disp _ hall]
      simp
    | some m =>
      have hm : m ∈ c.mechList := List.mem_of_find?_eq_some hf
      have hmne : ¬(m = "") := fun h => hne (h ▸ hm)
      simp only [startSelect, hdisp, findMech_eq_some reg c disp _ m hf]
      simp [hmne]
  refine ⟨hmain, ?_, by rfl, by rfl⟩
  intro pre mech post hsplit hpass hall
  rw [hmain, hsplit, find?_append_false _ pre (mech :: post) hall]
  simp [List.find?, hpass]

/-- Witness for C1 at the test registry with candidate order [MECH1, MECH2, MECH3]. -/
theorem start_selects_first_passing_candidate_witness :
    channelBindingDisposition testReg
        { defaultClient "imap" with mechList := ["MECH1", "MECH2", "MECH3"] } =
      Except.ok CBDisp.dispNone
    ∧ "" ∉ ["MECH1", "MECH2", "MECH3"]
    ∧ startSelect testReg
        { defaultClient "imap" with mechList := ["MECH1", "MECH2", "MECH3"] } =
        (match (["MECH1", "MECH2", "MECH3"] : List String).find?
            (mechOK testReg
              { defaultClient "imap" with mechList := ["MECH1", "MECH2", "MECH3"] }
              CBDisp.dispNone) with
          | some mech => Except.ok mech
          | none => Except.error SaslErr.NoMech) :=
  ⟨by rfl, by decide,
    (start_selects_first_passing_candidate testReg
      { defaultClient "imap" with mechList := ["MECH1", "MECH2", "MECH3"] }
      CBDisp.dispNone (by rfl) (by decide)).1⟩

/-! ### Analysis of `stepSSFCap` -/

/-- Evaluation of `stepSSFCap` once the external context has unwrapped the
peer token to exactly four bytes. -/
theorem stepSSFCap_unwrap_four {γ : Type} (iface : GssIface γ) (m : GSSAPIMech γ)
    (inTok : Option (List Nat)) (e0 e1 e2 e3 : Nat) (w : Bool)
    (h : iface.unwrap m.client inTok = .ok ([e0, e1, e2, e3], w)) :
    stepSSFCap iface m inTok =
      if m.config.MinSSF > (iface.ssf m.client + m.config.ExternalSSF) % uintMod then
        ⟨none, some (.TooWeak (iface.ssf m.client) m.config.ExternalSSF m.config.MinSSF), m⟩
      else
        match chooseQOP m.config m.qop (e0 % 256) (iface.ssf m.client)
            (if m.config.MaxSSF ≥ m.config.ExternalSSF then
              m.config.MaxSSF - m.config.ExternalSSF else 0)
            (if m.config.MinSSF ≥ m.config.ExternalSSF then
              m.config.MinSSF - m.config.ExternalSSF else 0) with
        | none => ⟨none, some .NoSecurityLayer, m⟩
        | some (qopChoice, newSSF) =>
          let m2 : GSSAPIMech γ :=
            if newSSF > 0 then
              { m with
                  ssf := newSSF
                  maxOutputBufferSz := iface.wrapSizeLimit m.client
                    (decodeBufSize (e1 % 256) (e2 % 256) (e3 % 256)) (newSSF > 1) % 4294967296 }
            else
              { m with
                  ssf := newSSF
                  maxOutputBufferSz := decodeBufSize (e1 % 256) (e2 % 256) (e3 % 256) }
          match iface.wrap m.client (ssfCapReply m.config qopChoice) false with
          | .error e => ⟨none, some (.external e), m2⟩
          | .ok outToken => ⟨some outToken, none, { m2 with state := .stateAuthenticated }⟩ := by
  simp only [stepSSFCap, h]
  simp [List.getD, apply_ite (GSSAPIMech.client (γ := γ)), apply_ite (GSSAPIMech.config (γ := γ))]

/-- `stepSSFCap` on an unwrapped payload of any length other than four. -/
theorem stepSSFCap_badlen {γ : Type} (iface : GssIface γ) (m : GSSAPIMech γ)
    (inTok : Option (List Nat)) (data : List Nat) (w : Bool)
    (h : iface.unwrap m.client inTok = .ok (data, w)) (hlen : data.length ≠ 4) :
    stepSSFCap iface m inTok = ⟨none, some (.BadToken data.length), m⟩ := by
  simp only [stepSSFCap, h]
  simp [List.length_map, hlen]

/-- The confidentiality arm of the QOP `switch`. -/
theorem chooseQOP_conf (cfg : MechConfig) (localQOP offer ch allowed need : Nat)
    (h1 : localQOP &&& layerConfidentiality > 0) (h2 : offer &&& layerConfidentiality > 0)
    (h3 : allowed ≥ ch) (h4 : need ≤ ch) :
    chooseQOP cfg localQOP offer ch allowed need =
      some ((match List.lookup "ad_compat" cfg.ExtraProps with
             | some val => if isTrue val then layerConfidentiality ||| layerIntegrity
                           else layerConfidentiality
             | none => layerConfidentiality), ch) := by
  unfold chooseQOP
  rw [if_pos (by simp [h1, h2, h3, h4])]

/-- The integrity arm of the QOP `switch`. -/
theorem chooseQOP_int (cfg : MechConfig) (localQOP offer ch allowed need : Nat)
    (hnc : ¬(localQOP &&& layerConfidentiality > 0 ∧ offer &&& layerConfidentiality > 0 ∧
      allowed ≥ ch ∧ need ≤ ch))
    (h1 : localQOP &&& layerIntegrity > 0) (h2 : offer &&& layerIntegrity > 0)
    (h3 : allowed ≥ 1) (h4 : need ≤ 2) :
    chooseQOP cfg localQOP offer ch allowed need = some (layerIntegrity, 1) := by
  unfold chooseQOP
  rw [if_neg (by simp only [Bool.and_eq_true, decide_eq_true_eq]; tauto),
    if_pos (by simp [h1, h2, h3, h4])]

/-- The no-layer arm of the QOP `switch`. -/
theorem chooseQOP_lnone (cfg : MechConfig) (localQOP offer ch allowed need : Nat)
    (hnc : ¬(localQOP &&& layerConfidentiality > 0 ∧ offer &&& layerConfidentiality > 0 ∧
      allowed ≥ ch ∧ need ≤ ch))
    (hni : ¬(localQOP &&& layerIntegrity > 0 ∧ offer &&& layerIntegrity > 0 ∧
      allowed ≥ 1 ∧ need ≤ 2))
    (h1 : localQOP &&& layerNone > 0) (h2 : offer &&& layerNone > 0) (h3 : need ≤ 0) :
    chooseQOP cfg localQOP offer ch allowed need = some (layerNone, 0) := by
  unfold chooseQOP
  rw [if_neg (by simp only [Bool.and_eq_true, decide_eq_true_eq]; tauto),
    if_neg (by simp only [Bool.and_eq_true, decide_eq_true_eq]; tauto),
    if_pos (by simp [h1, h2, h3])]

/-- The `default` arm of the QOP `switch`. -/
theorem chooseQOP_fail (cfg : MechConfig) (localQOP offer ch allowed need : Nat)
    (hnc : ¬(localQOP &&& layerConfidentiality > 0 ∧ offer &&& layerConfidentiality > 0 ∧
      allowed ≥ ch ∧ need ≤ ch))
    (hni : ¬(localQOP &&& layerIntegrity > 0 ∧ offer &&& layerIntegrity > 0 ∧
      allowed ≥ 1 ∧ need ≤ 2))
    (hnn : ¬(localQOP &&& layerNone > 0 ∧ offer &&& layerNone > 0 ∧ need ≤ 0)) :
    chooseQOP cfg localQOP offer ch allowed need = none := by
  unfold chooseQOP
  rw [if_neg (by simp only [Bool.and_eq_true, decide_eq_true_eq]; tauto),
    if_neg (by simp only [Bool.and_eq_true, decide_eq_true_eq]; tauto),
    if_neg (by simp only [Bool.and_eq_true, decide_eq_true_eq]; tauto)]

/-- The misparenthesised decode `(b1 << 16 | b2 << 8) + b3` still equals the
big-endian value whenever `b2` fits in one byte (which `[]byte` elements do). -/
theorem decodeBufSize_eq (b1 b2 b3 : Nat) (h2 : b2 < 256) :
    decodeBufSize b1 b2 b3 = 65536 * b1 + 256 * b2 + b3 := by
  unfold decodeBufSize
  rw [Nat.shiftLeft_eq, Nat.shiftLeft_eq]
  have h16 : (2 : Nat) ^ 16 = 65536 := by norm_num
  have h8 : (2 : Nat) ^ 8 = 256 := by norm_num
  rw [h16, h8]
  have hlt : b2 * 256 < 2 ^ 16 := by
    rw [h16]
    omega
  have hor := mulPow_or 16 b1 (b2 * 256) hlt
  rw [h16] at hor
  rw [hor]
  ring

/-- **C2**: in the SSFCapability state the quality of protection is chosen by
fixed priority — confidentiality (then `ssf = channelSSF`) exactly when locally
supported, offered, `allowedSSF ≥ channelSSF` and `needSSF ≤ channelSSF`;
otherwise integrity (then `ssf = 1`) exactly when locally supported, offered,
`allowedSSF ≥ 1` and `needSSF ≤ 2`; otherwise none (then `ssf = 0`) exactly
when locally supported, offered and `needSSF ≤ 0`; otherwise the step fails
with NoSecurityLayer.  When the peer offers only `{none, integrity}`,
integrity is chosen, never confidentiality. -/
theorem ssfcap_qop_fixed_priority (cfg : MechConfig) (localQOP offer ch allowed need : Nat) :
    ((localQOP &&& layerConfidentiality > 0 ∧ offer &&& layerConfidentiality > 0 ∧
        allowed ≥ ch ∧ need ≤ ch) →
      ∃ q, chooseQOP cfg localQOP offer ch allowed need = some (q, ch) ∧
        q &&& layerConfidentiality ≠ 0)
    ∧ ((∃ q s, chooseQOP cfg localQOP offer ch allowed need = some (q, s) ∧
          q &&& layerConfidentiality ≠ 0) →
        (localQOP &&& layerConfidentiality > 0 ∧ offer &&& layerConfidentiality > 0 ∧
          allowed ≥ ch ∧ need ≤ ch))
    ∧ (¬(localQOP &&& layerConfidentiality > 0 ∧ offer &&& layerConfidentiality > 0 ∧
          allowed ≥ ch ∧ need ≤ ch) →
        (chooseQOP cfg localQOP offer ch allowed need = some (layerIntegrity, 1) ↔
          (localQOP &&& layerIntegrity > 0 ∧ offer &&& layerIntegrity > 0 ∧
            allowed ≥ 1 ∧ need ≤ 2)))
    ∧ (¬(localQOP &&& layerConfidentiality > 0 ∧ offer &&& layerConfidentiality > 0 ∧
          allowed ≥ ch ∧ need ≤ ch) →
       ¬(localQOP &&& layerIntegrity > 0 ∧ offer &&& layerIntegrity > 0 ∧
          allowed ≥ 1 ∧ need ≤ 2) →
        (chooseQOP cfg localQOP offer ch allowed need = some (layerNone, 0) ↔
          (localQOP &&& layerNone > 0 ∧ offer &&& layerNone > 0 ∧ need ≤ 0)))
    ∧ (chooseQOP cfg localQOP offer ch allowed need = none ↔
        (¬(localQOP &&& layerConfidentiality > 0 ∧ offer &&& layerConfidentiality > 0 ∧
            allowed ≥ ch ∧ need ≤ ch) ∧
         ¬(localQOP &&& layerIntegrity > 0 ∧ offer &&& layerIntegrity > 0 ∧
            allowed ≥ 1 ∧ need ≤ 2) ∧
         ¬(localQOP &&& layerNone > 0 ∧ offer &&& layerNone > 0 ∧ need ≤ 0)))
    ∧ (offer = layerNone ||| layerIntegrity →
        localQOP &&& layerIntegrity > 0 → allowed ≥ 1 → need ≤ 2 →
        chooseQOP cfg localQOP offer ch allowed need = some (layerIntegrity, 1) ∧
          layerIntegrity &&& layerConfidentiality = 0)
    ∧ (∀ (γ : Type) (iface : GssIface γ) (m : GSSAPIMech γ) (inTok : Option (List Nat))
          (e0 e1 e2 e3 : Nat) (w : Bool),
        iface.unwrap m.client inTok = Except.ok ([e0, e1, e2, e3], w) →
        ¬(m.config.MinSSF > (iface.ssf m.client + m.config.ExternalSSF) % uintMod) →
        ((stepSSFCap iface m inTok).err = some SaslErr.NoSecurityLayer ↔
          chooseQOP m.config m.qop (e0 % 256) (iface.ssf m.client)
            (if m.config.MaxSSF ≥ m.config.ExternalSSF then
              m.config.MaxSSF - m.config.ExternalSSF else 0)
            (if m.config.MinSSF ≥ m.config.ExternalSSF then
              m.config.MinSSF - m.config.ExternalSSF else 0) = none)) := by
  have hconf : (localQOP &&& layerConfidentiality > 0 ∧ offer &&& layerConfidentiality > 0 ∧
      allowed ≥ ch ∧ need ≤ ch) →
      ∃ q, chooseQOP cfg localQOP offer ch allowed need = some (q, ch) ∧
        q &&& layerConfidentiality ≠ 0 := by
    rintro ⟨h1, h2, h3, h4⟩
    rw [chooseQOP_conf cfg localQOP offer ch allowed need h1 h2 h3 h4]
    cases hl : List.lookup "ad_compat" cfg.ExtraProps with
    | none => exact ⟨layerConfidentiality, rfl, by decide⟩
    | some val =>
      by_cases ht : isTrue val
      · exact ⟨layerConfidentiality ||| layerIntegrity, by simp [ht], by decide⟩
      · exact ⟨layerConfidentiality, by simp [ht], by decide⟩
  refine ⟨hconf, ?_, ?_, ?_, ?_, ?_, ?_⟩
  · rintro ⟨q, s, hq, hq4⟩
    by_cases hc : localQOP &&& layerConfidentiality > 0 ∧ offer &&& layerConfidentiality > 0 ∧
        allowed ≥ ch ∧ need ≤ ch
    · exact hc
    exfalso
    by_cases hi : localQOP &&& layerIntegrity > 0 ∧ offer &&& layerIntegrity > 0 ∧
        allowed ≥ 1 ∧ need ≤ 2
    · rw [chooseQOP_int cfg localQOP offer ch allowed need hc hi.1 hi.2.1 hi.2.2.1 hi.2.2.2] at hq
      cases hq
      exact hq4 (by decide)
    by_cases hn : localQOP &&& layerNone > 0 ∧ offer &&& layerNone > 0 ∧ need ≤ 0
    · rw [chooseQOP_lnone cfg localQOP offer ch allowed need hc hi hn.1 hn.2.1 hn.2.2] at hq
      cases hq
      exact hq4 (by decide)
    · rw [chooseQOP_fail cfg localQOP offer ch allowed need hc hi hn] at hq
      cases hq
  · intro hc
    constructor
    · intro hq
      by_cases hi : localQOP &&& layerIntegrity > 0 ∧ offer &&& layerIntegrity > 0 ∧
          allowed ≥ 1 ∧ need ≤ 2
      · exact hi
      exfalso
      by_cases hn : localQOP &&& layerNone > 0 ∧ offer &&& layerNone > 0 ∧ need ≤ 0
      · rw [chooseQOP_lnone cfg localQOP offer ch allowed need hc hi hn.1 hn.2.1 hn.2.2] at hq
        simp [layerNone, layerIntegrity] at hq
      · rw [chooseQOP_fail cfg localQOP offer ch allowed need hc hi hn] at hq
        cases hq
    · intro hi
      exact chooseQOP_int cfg localQOP offer ch allowed need hc hi.1 hi.2.1 hi.2.2.1 hi.2.2.2
  · intro hc hi
    constructor
    · intro hq
      by_cases hn : localQOP &&& layerNone > 0 ∧ offer &&& layerNone > 0 ∧ need ≤ 0
      · exact hn
      · rw [chooseQOP_fail cfg localQOP offer ch allowed need hc hi hn] at hq
        cases hq
    · intro hn
      exact chooseQOP_lnone cfg localQOP offer ch allowed need hc hi hn.1 hn.2.1 hn.2.2
  · constructor
    · intro hq
      by_cases hc : localQOP &&& layerConfidentiality > 0 ∧ offer &&& layerConfidentiality > 0 ∧
          allowed ≥ ch ∧ need ≤ ch
      · obtain ⟨q, hqe, _⟩ := hconf hc
        rw [hqe] at hq
        cases hq
      by_cases hi : localQOP &&& layerIntegrity > 0 ∧ offer &&& layerIntegrity > 0 ∧
          allowed ≥ 1 ∧ need ≤ 2
      · rw [chooseQOP_int cfg localQOP offer ch allowed need hc hi.1 hi.2.1 hi.2.2.1 hi.2.2.2] at hq
        cases hq
      by_cases hn : localQOP &&& layerNone > 0 ∧ offer &&& layerNone > 0 ∧ need ≤ 0
      · rw [chooseQOP_lnone cfg localQOP offer ch allowed need hc hi hn.1 hn.2.1 hn.2.2] at hq
        cases hq
      · exact ⟨hc, hi, hn⟩
    · rintro ⟨hc, hi, hn⟩
      exact chooseQOP_fail cfg localQOP offer ch allowed need hc hi hn
  · intro hoff h1 h3 h4
    subst hoff
    have hc : ¬(localQOP &&& layerConfidentiality > 0 ∧
        (layerNone ||| layerIntegrity) &&& layerConfidentiality > 0 ∧
        allowed ≥ ch ∧ need ≤ ch) := by
      rintro ⟨-, h2, -, -⟩
      revert h2
      decide
    exact ⟨chooseQOP_int cfg localQOP _ ch allowed need hc h1 (by decide) h3 h4, by decide⟩
  · intro γ iface m inTok e0 e1 e2 e3 w hu hnw
    rw [stepSSFCap_unwrap_four iface m inTok e0 e1 e2 e3 w hu, if_neg hnw]
    cases hq : chooseQOP m.config m.qop (e0 % 256) (iface.ssf m.client)
        (if m.config.MaxSSF ≥ m.config.ExternalSSF then
          m.config.MaxSSF - m.config.ExternalSSF else 0)
        (if m.config.MinSSF ≥ m.config.ExternalSSF then
          m.config.MinSSF - m.config.ExternalSSF else 0) with
    | none => simp
    | some p =>
      obtain ⟨qc, s⟩ := p
      cases hw : iface.wrap m.client (ssfCapReply m.config qc) false with
      | error e => simp [hw]
      | ok t => simp [hw]

/-- Witness for C2: local QOP `{none,integrity,confidentiality}` (7), peer
offer `{none,integrity}` (3), `allowedSSF ≥ channelSSF` false (5 < 10),
`allowedSSF ≥ 1` and `needSSF ≤ 2` true: integrity wins, not
confidentiality. -/
theorem ssfcap_qop_fixed_priority_witness :
    chooseQOP cfg0 7 3 10 5 2 = some (layerIntegrity, 1) ∧
      layerIntegrity &&& layerConfidentiality = 0 :=
  (ssfcap_qop_fixed_priority cfg0 7 3 10 5 2).2.2.2.2.2.1 (by decide) (by decide)
    (by decide) (by decide)

/-- **C3**: `stepSSFCap` fails with BadToken for every unwrapped payload whose
length is not exactly 4; on a 4-byte payload byte 0 is the peer QOP bitmask
fed to the arbitration and bytes 1–3 decode as a big-endian 24-bit unsigned
size, so `[1,255,255,255]` yields `65536*255 + 256*255 + 255`. -/
theorem ssfcap_token_length_and_size {γ : Type} (iface : GssIface γ) (m : GSSAPIMech γ)
    (inTok : Option (List Nat)) :
    (∀ (data : List Nat) (w : Bool),
        iface.unwrap m.client inTok = Except.ok (data, w) → data.length ≠ 4 →
        stepSSFCap iface m inTok = ⟨none, some (.BadToken data.length), m⟩)
    ∧ (∀ b1 b2 b3 : Nat, b2 < 256 → decodeBufSize b1 b2 b3 = 65536 * b1 + 256 * b2 + b3)
    ∧ decodeBufSize 255 255 255 = 65536 * 255 + 256 * 255 + 255
    ∧ (∀ (e0 e1 e2 e3 : Nat) (w : Bool) (qc s : Nat),
        iface.unwrap m.client inTok = Except.ok ([e0, e1, e2, e3], w) →
        ¬(m.config.MinSSF > (iface.ssf m.client + m.config.ExternalSSF) % uintMod) →
        chooseQOP m.config m.qop (e0 % 256) (iface.ssf m.client)
          (if m.config.MaxSSF ≥ m.config.ExternalSSF then
            m.config.MaxSSF - m.config.ExternalSSF else 0)
          (if m.config.MinSSF ≥ m.config.ExternalSSF then
            m.config.MinSSF - m.config.ExternalSSF else 0) = some (qc, s) →
        (stepSSFCap iface m inTok).mech.maxOutputBufferSz =
          (if s > 0 then
            iface.wrapSizeLimit m.client
              (decodeBufSize (e1 % 256) (e2 % 256) (e3 % 256)) (s > 1) % 4294967296
          else
            decodeBufSize (e1 % 256) (e2 % 256) (e3 % 256))) := by
  refine ⟨fun data w h hlen => stepSSFCap_badlen iface m inTok data w h hlen,
    fun b1 b2 b3 h2 => decodeBufSize_eq b1 b2 b3 h2, by decide, ?_⟩
  intro e0 e1 e2 e3 w qc s hu hnw hq
  rw [stepSSFCap_unwrap_four iface m inTok e0 e1 e2 e3 w hu, if_neg hnw, hq]
  cases hw : iface.wrap m.client (ssfCapReply m.config qc) false with
  | error e =>
    simp [hw, apply_ite (GSSAPIMech.maxOutputBufferSz (γ := γ))]
  | ok t =>
    simp [hw, apply_ite (GSSAPIMech.maxOutputBufferSz (γ := γ))]

/-- Witness for C3: a 3-byte unwrapped payload fails with `BadToken 3`. -/
theorem ssfcap_token_length_and_size_witness :
    stepSSFCap (constIface 0 [9, 9, 9]) (mkMech cfg0 0 0 .stateSSFCap) (some []) =
      ⟨none, some (.BadToken 3), mkMech cfg0 0 0 .stateSSFCap⟩ :=
  (ssfcap_token_length_and_size (constIface 0 [9, 9, 9])
    (mkMech cfg0 0 0 .stateSSFCap) (some [])).1 [9, 9, 9] false rfl (by decide)

/-- **C5 counterexample**: the claim "TooWeak is raised iff
`channelSSF + externalSSF < minSSF`" fails at `channelSSF = 2^64 - 1`,
`externalSSF = 1`, `minSSF = 1`: the Go `uint` sum wraps to 0, the code
raises `TooWeak(2^64-1, 1, 1)`, yet the mathematical sum is not below 1. -/
theorem ssfcap_tooweak_overflow_cex :
    (stepSSFCap (constIface uintMax [1, 0, 0, 0])
        (mkMech { cfg0 with MinSSF := 1, ExternalSSF := 1 } 7 0 .stateSSFCap)
        (some [])).err = some (SaslErr.TooWeak uintMax 1 1)
    ∧ ¬(uintMax + 1 < 1) := by
  constructor
  · rfl
  · decide

/-- **C5 (amended)**: given a 4-byte unwrapped payload, `stepSSFCap` fails
with TooWeak iff `(channelSSF + externalSSF) mod 2^64 < minSSF` (Go `uint`
addition wraps); the error carries exactly the channel SSF, the external SSF
and the required minimum; whenever the sum does not overflow 64 bits this is
the plain `channelSSF + externalSSF < minSSF`. -/
theorem ssfcap_tooweak_iff_mod {γ : Type} (iface : GssIface γ) (m : GSSAPIMech γ)
    (inTok : Option (List Nat)) (e0 e1 e2 e3 : Nat) (w : Bool)
    (h : iface.unwrap m.client inTok = Except.ok ([e0, e1, e2, e3], w)) :
    ((stepSSFCap iface m inTok).err
        = some (.TooWeak (iface.ssf m.client) m.config.ExternalSSF m.config.MinSSF)
      ↔ (iface.ssf m.client + m.config.ExternalSSF) % uintMod < m.config.MinSSF)
    ∧ (∀ a b c : Nat, (stepSSFCap iface m inTok).err = some (.TooWeak a b c) →
        a = iface.ssf m.client ∧ b = m.config.ExternalSSF ∧ c = m.config.MinSSF ∧
          (a + b) % uintMod < c)
    ∧ (iface.ssf m.client + m.config.ExternalSSF < uintMod →
        ((stepSSFCap iface m inTok).err
            = some (.TooWeak (iface.ssf m.client) m.config.ExternalSSF m.config.MinSSF)
          ↔ iface.ssf m.client + m.config.ExternalSSF < m.config.MinSSF)) := by
  rw [stepSSFCap_unwrap_four iface m inTok e0 e1 e2 e3 w h]
  by_cases hcmp : (iface.ssf m.client + m.config.ExternalSSF) % uintMod < m.config.MinSSF
  · rw [if_pos hcmp]
    refine ⟨by simpa using hcmp, ?_, ?_⟩
    · intro a b c heq
      simp only [Option.some.injEq, SaslErr.TooWeak.injEq] at heq
      exact ⟨heq.1.symm, heq.2.1.symm, heq.2.2.symm, by
        rw [← heq.1, ← heq.2.1, ← heq.2.2]
        exact hcmp⟩
    · intro hlt
      rw [Nat.mod_eq_of_lt hlt] at hcmp
      simpa [Nat.mod_eq_of_lt hlt] using hcmp
  · rw [if_neg hcmp]
    have herr : ∀ a b c : Nat,
        ¬((match chooseQOP m.config m.qop (e0 % 256) (iface.ssf m.client)
            (if m.config.MaxSSF ≥ m.config.ExternalSSF then
              m.config.MaxSSF - m.config.ExternalSSF else 0)
            (if m.config.MinSSF ≥ m.config.ExternalSSF then
              m.config.MinSSF - m.config.ExternalSSF else 0) with
          | none => (⟨none, some SaslErr.NoSecurityLayer, m⟩ : StepResult γ)
          | some (qopChoice, newSSF) =>
            let m2 : GSSAPIMech γ :=
              if newSSF > 0 then
                { m with
                    ssf := newSSF
                    maxOutputBufferSz := iface.wrapSizeLimit m.client
                      (decodeBufSize (e1 % 256) (e2 % 256) (e3 % 256)) (newSSF > 1) % 4294967296 }
              else
                { m with
                    ssf := newSSF
                    maxOutputBufferSz := decodeBufSize (e1 % 256) (e2 % 256) (e3 % 256) }
            match iface.wrap m.client (ssfCapReply m.config qopChoice) false with
            | .error e => ⟨none, some (.external e), m2⟩
            | .ok outToken => ⟨some outToken, none, { m2 with state := .stateAuthenticated }⟩).err
          = some (.TooWeak a b c)) := by
      intro a b c
      cases hq : chooseQOP m.config m.qop (e0 % 256) (iface.ssf m.client)
          (if m.config.MaxSSF ≥ m.config.ExternalSSF then
            m.config.MaxSSF - m.config.ExternalSSF else 0)
          (if m.config.MinSSF ≥ m.config.ExternalSSF then
            m.config.MinSSF - m.config.ExternalSSF else 0) with
      | none => simp
      | some p =>
        obtain ⟨qc, s⟩ := p
        cases hw : iface.wrap m.client (ssfCapReply m.config qc) false with
        | error e => simp [hw]
        | ok t => simp [hw]
    refine ⟨⟨fun heq => absurd heq (herr _ _ _), fun hlt => absurd hlt hcmp⟩, ?_, ?_⟩
    · intro a b c heq
      exact absurd heq (herr a b c)
    · intro hlt
      rw [Nat.mod_eq_of_lt hlt] at hcmp
      exact ⟨fun heq => absurd heq (herr _ _ _), fun hx => absurd hx hcmp⟩

/-- Witness for C5 (amended): `channelSSF = 3`, `externalSSF = 0`,
`minSSF = 5` raises exactly `TooWeak(3, 0, 5)`. -/
theorem ssfcap_tooweak_iff_mod_witness :
    (stepSSFCap (constIface 3 [1, 0, 0, 0])
        (mkMech { cfg0 with MinSSF := 5 } 7 0 .stateSSFCap) (some [])).err =
      some (SaslErr.TooWeak 3 0 5) :=
  ((ssfcap_tooweak_iff_mod (constIface 3 [1, 0, 0, 0])
      (mkMech { cfg0 with MinSSF := 5 } 7 0 .stateSSFCap)
      (some []) 1 0 0 0 false rfl).1).mpr (by decide)

/-- **C6**: the 4-byte reply has the chosen QOP in byte 0 and, exactly when
the chosen QOP is above none, the big-endian 24-bit encoding of
`min(configuredMaxBufSize, 0xFFFFFF)` in bytes 1–3 (left zero otherwise);
`(qop=4, size=65793)` encodes to `[4,1,1,1]`; the reply is passed to the
external context's wrap with confidentiality `false` (integrity only). -/
theorem ssfcap_reply_integrity_only (cfg : MechConfig) (qc : Nat) :
    (qc > 1 → ssfCapReply cfg qc =
      [qc, minUint cfg.MaxBufSize 16777215 / 65536,
        minUint cfg.MaxBufSize 16777215 / 256 % 256,
        minUint cfg.MaxBufSize 16777215 % 256])
    ∧ (qc > 1 → decodeBufSize (minUint cfg.MaxBufSize 16777215 / 65536)
        (minUint cfg.MaxBufSize 16777215 / 256 % 256)
        (minUint cfg.MaxBufSize 16777215 % 256) = minUint cfg.MaxBufSize 16777215)
    ∧ (¬qc > 1 → ssfCapReply cfg qc = [qc, 0, 0, 0])
    ∧ ssfCapReply { cfg0 with MaxBufSize := 65793 } 4 = [4, 1, 1, 1]
    ∧ (∀ (γ : Type) (iface : GssIface γ) (m : GSSAPIMech γ) (inTok : Option (List Nat))
          (e0 e1 e2 e3 : Nat) (w : Bool) (qc2 s2 : Nat) (out : List Nat),
        iface.unwrap m.client inTok = Except.ok ([e0, e1, e2, e3], w) →
        ¬(m.config.MinSSF > (iface.ssf m.client + m.config.ExternalSSF) % uintMod) →
        chooseQOP m.config m.qop (e0 % 256) (iface.ssf m.client)
          (if m.config.MaxSSF ≥ m.config.ExternalSSF then
            m.config.MaxSSF - m.config.ExternalSSF else 0)
          (if m.config.MinSSF ≥ m.config.ExternalSSF then
            m.config.MinSSF - m.config.ExternalSSF else 0) = some (qc2, s2) →
        iface.wrap m.client (ssfCapReply m.config qc2) false = Except.ok out →
        (stepSSFCap iface m inTok).outTok = some out
          ∧ (stepSSFCap iface m inTok).err = none) := by
  have hbound : minUint cfg.MaxBufSize 16777215 ≤ 16777215 := by
    unfold minUint
    split <;> omega
  have hb1 : minUint cfg.MaxBufSize 16777215 / 65536 < 256 := by omega
  have hb2 : minUint cfg.MaxBufSize 16777215 / 256 % 256 < 256 := by omega
  refine ⟨?_, ?_, ?_, by decide, ?_⟩
  · intro hq
    unfold ssfCapReply
    rw [if_pos hq]
    have e16 : minUint cfg.MaxBufSize 16777215 >>> 16 &&& 255 =
        minUint cfg.MaxBufSize 16777215 / 65536 := by
      rw [Nat.shiftRight_eq_div_pow]
      norm_num
      have h255 : (255 : Nat) = 2 ^ 8 - 1 := by norm_num
      rw [h255, Nat.and_pow_two_sub_one_eq_mod]
      norm_num
      omega
    have e8 : minUint cfg.MaxBufSize 16777215 >>> 8 &&& 255 =
        minUint cfg.MaxBufSize 16777215 / 256 % 256 := by
      rw [Nat.shiftRight_eq_div_pow]
      have h255 : (255 : Nat) = 2 ^ 8 - 1 := by norm_num
      rw [h255, Nat.and_pow_two_sub_one_eq_mod]
    have e0b : minUint cfg.MaxBufSize 16777215 >>> 0 &&& 255 =
        minUint cfg.MaxBufSize 16777215 % 256 := by
      rw [Nat.shiftRight_zero]
      have h255 : (255 : Nat) = 2 ^ 8 - 1 := by norm_num
      rw [h255, Nat.and_pow_two_sub_one_eq_mod]
    simp only [e16, e8, e0b]
  · intro hq
    rw [decodeBufSize_eq _ _ _ hb2]
    omega
  · intro hq
    unfold ssfCapReply
    rw [if_neg hq]
  · intro γ iface m inTok e0 e1 e2 e3 w qc2 s2 out hu hnw hq hw
    rw [stepSSFCap_unwrap_four iface m inTok e0 e1 e2 e3 w hu, if_neg hnw, hq]
    constructor <;> simp [hw]

/-- Witness for C6 at `MaxBufSize = 70000`, chosen QOP 4:
`70000 = 1*65536 + 17*256 + 112`. -/
theorem ssfcap_reply_integrity_only_witness :
    ssfCapReply { cfg0 with MaxBufSize := 70000 } 4 = [4, 1, 17, 112] :=
  (ssfcap_reply_integrity_only { cfg0 with MaxBufSize := 70000 } 4).1 (by decide)

/-! ### State transitions of the handshake -/

theorem finishAuthenticating_state {γ : Type} (iface : GssIface γ) (m : GSSAPIMech γ)
    (tok : List Nat) :
    ((finishAuthenticating iface m tok).mech.state = m.state ∧
      (finishAuthenticating iface m tok).mech.config = m.config) ∨
    ((finishAuthenticating iface m tok).mech.state = .stateSSFCap ∧
      m.config.HTTPMode = false) ∨
    ((finishAuthenticating iface m tok).mech.state = .stateAuthenticated ∧
      m.config.HTTPMode = true) := by
  unfold finishAuthenticating
  by_cases he : iface.isEstablished (iface.cont m.client tok).2.2
  · by_cases hh : m.config.HTTPMode
    · right; right
      simp [he, hh]
    · right; left
      simp [he, hh]
  · left
    simp [he]

theorem stepAuthenticating_state {γ : Type} (iface : GssIface γ) (m : GSSAPIMech γ)
    (inTok : Option (List Nat)) :
    (stepAuthenticating iface m inTok).mech.state = m.state ∨
    ((stepAuthenticating iface m inTok).mech.state = .stateSSFCap ∧
      m.config.HTTPMode = false) ∨
    ((stepAuthenticating iface m inTok).mech.state = .stateAuthenticated ∧
      m.config.HTTPMode = true) := by
  unfold stepAuthenticating
  cases inTok with
  | some tok =>
    rcases finishAuthenticating_state iface m tok with h | h | h
    · exact Or.inl h.1
    · exact Or.inr (Or.inl h)
    · exact Or.inr (Or.inr h)
  | none =>
    by_cases hf : m.config.ServerFQDN.length = 0
    · simp [hf]
    · simp only [hf, if_false]
      cases hi : iface.initiate m.client (m.config.Service ++ "/" ++ m.config.ServerFQDN)
          (if m.config.MaxSSF > m.config.ExternalSSF then
            ContextFlagMutual ||| ContextFlagSequence ||| ContextFlagInteg |||
              (if m.config.MaxSSF - m.config.ExternalSSF > 1 then ContextFlagConf else 0)
          else ContextFlagMutual ||| ContextFlagSequence)
          (m.config.ChannelBinding.map fun cb => cb.Data) with
      | error e => simp [hi]
      | ok client1 =>
        simp only [hi]
        rcases finishAuthenticating_state iface
            { m with
                client := client1
                qop := if iface.contextFlags client1 &&& ContextFlagInteg = 0 then layerNone
                  else if iface.contextFlags client1 &&& ContextFlagConf = 0 then
                    layerNone ||| layerIntegrity
                  else layerNone ||| layerIntegrity ||| layerConfidentiality } [] with h | h | h
        · exact Or.inl h.1
        · exact Or.inr (Or.inl h)
        · exact Or.inr (Or.inr h)

theorem stepSSFCap_state {γ : Type} (iface : GssIface γ) (m : GSSAPIMech γ)
    (inTok : Option (List Nat)) :
    (stepSSFCap iface m inTok).mech.state = m.state ∨
    (stepSSFCap iface m inTok).mech.state = .stateAuthenticated := by
  cases hu : iface.unwrap m.client inTok with
  | error e =>
    left
    simp [stepSSFCap, hu]
  | ok p =>
    obtain ⟨data0, w⟩ := p
    by_cases hlen : data0.length = 4
    case neg =>
      left
      rw [stepSSFCap_badlen iface m inTok data0 w hu hlen]
    case pos =>
      obtain ⟨e0, e1, e2, e3, hd⟩ : ∃ a b c d, data0 = [a, b, c, d] := by
        rcases data0 with _ | ⟨a, _ | ⟨b, _ | ⟨c, _ | ⟨d, rest⟩⟩⟩⟩
        · simp at hlen
        · simp at hlen
        · simp at hlen
        · simp at hlen
        · cases rest with
          | nil => exact ⟨a, b, c, d, rfl⟩
          | cons e t => simp at hlen
      subst hd
      rw [stepSSFCap_unwrap_four iface m inTok e0 e1 e2 e3 w hu]
      by_cases hweak : m.config.MinSSF > (iface.ssf m.client + m.config.ExternalSSF) % uintMod
      · left
        rw [if_pos hweak]
      · rw [if_neg hweak]
        cases hq : chooseQOP m.config m.qop (e0 % 256) (iface.ssf m.client)
            (if m.config.MaxSSF ≥ m.config.ExternalSSF then
              m.config.MaxSSF - m.config.ExternalSSF else 0)
            (if m.config.MinSSF ≥ m.config.ExternalSSF then
              m.config.MinSSF - m.config.ExternalSSF else 0) with
        | none =>
          left
          rfl
        | some p2 =>
          obtain ⟨qc, s⟩ := p2
          cases hw : iface.wrap m.client (ssfCapReply m.config qc) false with
          | error e =>
            left
            simp [hw, apply_ite (GSSAPIMech.state (γ := γ))]
          | ok t =>
            right
            simp [hw, apply_ite (GSSAPIMech.state (γ := γ))]

/-- **C7**: the handshake state only moves forward along
Authenticating → SSFCapability → Authenticated (stateRank never decreases);
from Authenticating with HTTP mode off the state never jumps straight to
Authenticated; and in the Authenticated state every `Step` call fails with
AlreadyEstablished returning the mechanism unchanged. -/
theorem handshake_state_monotonic {γ : Type} (iface : GssIface γ) (m : GSSAPIMech γ)
    (inTok : Option (List Nat)) :
    stateRank m.state ≤ stateRank (Step iface m inTok).mech.state
    ∧ (m.state = .stateAuthenticated →
        Step iface m inTok = ⟨none, some SaslErr.AlreadyEstablished, m⟩)
    ∧ (m.state = .stateAuthenticating → m.config.HTTPMode = false →
        (Step iface m inTok).mech.state ≠ .stateAuthenticated) := by
  cases hst : m.state with
  | stateAuthenticating =>
    have hdisp : Step iface m inTok = stepAuthenticating iface m inTok := by
      unfold Step
      rw [hst]
    refine ⟨Nat.zero_le _, ?_, ?_⟩
    · intro h
      cases h
    · intro _ hhttp
      rw [hdisp]
      rcases stepAuthenticating_state iface m inTok with h | h | h
      · rw [h, hst]
        intro hc
        cases hc
      · rw [h.1]
        intro hc
        cases hc
      · rw [hhttp] at h
        cases h.2
  | stateSSFCap =>
    have hdisp : Step iface m inTok = stepSSFCap iface m inTok := by
      unfold Step
      rw [hst]
    refine ⟨?_, ?_, ?_⟩
    · rw [hdisp]
      rcases stepSSFCap_state iface m inTok with h | h
      · rw [h, hst]
      · rw [h]
        exact Nat.le_succ 1
    · intro h
      cases h
    · intro h
      cases h
  | stateAuthenticated =>
    have hdisp : Step iface m inTok = ⟨none, some SaslErr.AlreadyEstablished, m⟩ := by
      unfold Step
      rw [hst]
    refine ⟨?_, fun _ => hdisp, ?_⟩
    · rw [hdisp, hst]
    · intro h
      cases h

/-- Witness for C7: a second `Step` after establishment fails with
AlreadyEstablished and leaves the mechanism untouched. -/
theorem handshake_state_monotonic_witness :
    Step (constIface 0 []) (mkMech cfg0 0 0 .stateAuthenticated) none =
      ⟨none, some SaslErr.AlreadyEstablished, mkMech cfg0 0 0 .stateAuthenticated⟩ :=
  (handshake_state_monotonic (constIface 0 [])
    (mkMech cfg0 0 0 .stateAuthenticated) none).2.1 rfl

/-- **C4**: the no-plaintext bit is removed from the required property set iff
`externalSSF > minSSF` and `externalSSF > 1` (and nothing else changes); in
every other configuration exactly the configured set is used; with
`minSSF = 20` and `externalSSF = 25` the plaintext-susceptible MECH2 is
selected. -/
theorem noplaintext_waiver_iff (c : SaslClient) :
    (c.extSSF > c.minSSF ∧ c.extSSF > 1 →
      Nat.testBit (wantSecProps c) 0 = false ∧
      (∀ i, i ≠ 0 → Nat.testBit (wantSecProps c) i = Nat.testBit c.secProps i))
    ∧ (¬(c.extSSF > c.minSSF ∧ c.extSSF > 1) → wantSecProps c = c.secProps)
    ∧ Nat.testBit SecNoPlainText 0 = true
    ∧ startSelect testReg
        { defaultClient "imap" with
            mechList := ["MECH2", "MECH3", "MECH1"]
            minSSF := 20
            extSSF := 25 } = Except.ok "MECH2"
    ∧ (Properties testReg "MECH2").SecurityProperties &&& SecNoPlainText = 0 := by
  refine ⟨?_, ?_, by decide, by rfl, by decide⟩
  · rintro ⟨hx1, hx2⟩
    unfold wantSecProps
    rw [if_pos (by simp [hx1, hx2])]
    constructor
    · rw [Nat.testBit_xor, Nat.testBit_and]
      have hb : Nat.testBit SecNoPlainText 0 = true := by decide
      rw [hb]
      cases hsp : Nat.testBit c.secProps 0 <;> rfl
    · intro i hi
      rw [Nat.testBit_xor, Nat.testBit_and]
      have hb : Nat.testBit SecNoPlainText i = false := by
        unfold SecNoPlainText
        have h1eq : (1 : Nat) = 2 ^ 0 := by norm_num
        rw [h1eq]
        exact Nat.testBit_two_pow_of_ne fun h => hi h.symm
      rw [hb]
      cases hsp : Nat.testBit c.secProps i <;> rfl
  · intro hn
    unfold wantSecProps
    rw [if_neg (by simp only [Bool.and_eq_true, decide_eq_true_eq]; tauto)]

/-- Witness for C4: with the default required set (17), `minSSF = 20` and
`externalSSF = 25`, the no-plaintext bit of the effective required set is
cleared. -/
theorem noplaintext_waiver_iff_witness :
    Nat.testBit (wantSecProps
      { defaultClient "imap" with
          mechList := ["MECH2", "MECH3", "MECH1"]
          minSSF := 20
          extSSF := 25 }) 0 = false :=
  ((noplaintext_waiver_iff
    { defaultClient "imap" with
        mechList := ["MECH2", "MECH3", "MECH1"]
        minSSF := 20
        extSSF := 25 }).1 (by decide)).1

/-- **C8**: `Mechs()` ranges over a Go map, whose visiting order is
unspecified, so over the two-mechanism registry of the repository's own
`TestMechs` both `["TEST2","TEST3"]` and `["TEST3","TEST2"]` are possible
results of a single invocation — two invocations over the same registered
set need not return the same order, refuting determinism. -/
theorem mechs_order_not_deterministic :
    MechsCanReturn ["TEST2", "TEST3"] ["TEST2", "TEST3"]
    ∧ MechsCanReturn ["TEST2", "TEST3"] ["TEST3", "TEST2"]
    ∧ (["TEST2", "TEST3"] : List String) ≠ ["TEST3", "TEST2"] :=
  ⟨by decide, by decide, by decide⟩

/-- **C9**: once established with negotiated SSF 0, the session-level Encode
and Decode return the input unchanged for every byte sequence and every
mechanism behaviour (no delegation), while the GSSAPI mechanism's own Encode
and Decode fail with NoSecurityLayer whenever `ssf = 0`. -/
theorem ssf_zero_encode_decode (μ γ : Type) (iface : MechIface μ) (mm : μ)
    (input : List Nat) (giface : GssIface γ) (gm : GSSAPIMech γ) :
    (iface.isEstablished mm = true → (iface.contextParams mm).SSF = 0 →
      clientEncode iface (some mm) input = .ok input ∧
      clientDecode iface (some mm) input = .ok input)
    ∧ (gm.ssf = 0 →
      mechEncode giface gm input = .error .NoSecurityLayer ∧
      mechDecode giface gm input = .error .NoSecurityLayer) := by
  constructor
  · intro he hssf
    constructor <;> simp [clientEncode, clientDecode, he, hssf]
  · intro h0
    constructor <;> simp [mechEncode, mechDecode, h0]

/-- Witness for C9 at a concrete established mechanism with SSF 0. -/
theorem ssf_zero_encode_decode_witness :
    clientEncode (constMechIface 0) (some ()) [10, 20, 30] = .ok [10, 20, 30]
    ∧ clientDecode (constMechIface 0) (some ()) [10, 20, 30] = .ok [10, 20, 30]
    ∧ mechEncode (constIface 0 []) (mkMech cfg0 0 0 .stateAuthenticated) [10, 20, 30] =
        .error SaslErr.NoSecurityLayer
    ∧ mechDecode (constIface 0 []) (mkMech cfg0 0 0 .stateAuthenticated) [10, 20, 30] =
        .error SaslErr.NoSecurityLayer :=
  have h := ssf_zero_encode_decode Unit Unit (constMechIface 0) () [10, 20, 30]
    (constIface 0 []) (mkMech cfg0 0 0 .stateAuthenticated)
  ⟨(h.1 rfl rfl).1, (h.1 rfl rfl).2, (h.2 rfl).1, (h.2 rfl).2⟩

/-- **C10**: when confidentiality wins the arbitration, the integrity bit is
added to the reply bitmask iff the extra property `ad_compat` is present with
value exactly one of "1", "y", "on", "t"; for any other value (including
"true", "yes", "Y") the reply carries the confidentiality bit alone. -/
theorem ad_compat_truthy_carveout (cfg : MechConfig) (localQOP offer ch allowed need : Nat)
    (h1 : localQOP &&& layerConfidentiality > 0) (h2 : offer &&& layerConfidentiality > 0)
    (h3 : allowed ≥ ch) (h4 : need ≤ ch) :
    (∀ val : String, isTrue val = true ↔ (val = "1" ∨ val = "y" ∨ val = "on" ∨ val = "t"))
    ∧ (chooseQOP cfg localQOP offer ch allowed need =
        some (layerConfidentiality ||| layerIntegrity, ch) ↔
        ∃ val, List.lookup "ad_compat" cfg.ExtraProps = some val ∧ isTrue val = true)
    ∧ ((¬∃ val, List.lookup "ad_compat" cfg.ExtraProps = some val ∧ isTrue val = true) →
        chooseQOP cfg localQOP offer ch allowed need = some (layerConfidentiality, ch))
    ∧ isTrue "true" = false ∧ isTrue "yes" = false ∧ isTrue "Y" = false := by
  have hc := chooseQOP_conf cfg localQOP offer ch allowed need h1 h2 h3 h4
  refine ⟨?_, ?_, ?_, by decide, by decide, by decide⟩
  · intro val
    simp [isTrue, or_assoc]
  · rw [hc]
    cases hl : List.lookup "ad_compat" cfg.ExtraProps with
    | none =>
      simp [layerConfidentiality, layerIntegrity]
    | some val =>
      by_cases ht : isTrue val
      · simp [ht]
      · simp [ht, layerConfidentiality, layerIntegrity]
  · intro hne
    rw [hc]
    cases hl : List.lookup "ad_compat" cfg.ExtraProps with
    | none => rfl
    | some val =>
      have hnt : ¬isTrue val = true := fun ht => hne ⟨val, hl, ht⟩
      simp [hnt]

/-- Witness for C10: with `ad_compat = "on"` the reply carries both bits; the
value "true" is not recognised. -/
theorem ad_compat_truthy_carveout_witness :
    chooseQOP { cfg0 with ExtraProps := [("ad_compat", "on")] } 7 7 5 5 0 =
      some (layerConfidentiality ||| layerIntegrity, 5)
    ∧ chooseQOP { cfg0 with ExtraProps := [("ad_compat", "true")] } 7 7 5 5 0 =
      some (layerConfidentiality, 5) :=
  ⟨(ad_compat_truthy_carveout { cfg0 with ExtraProps := [("ad_compat", "on")] }
      7 7 5 5 0 (by decide) (by decide) (by decide) (by decide)).2.1.mpr
        ⟨"on", rfl, by decide⟩,
    (ad_compat_truthy_carveout { cfg0 with ExtraProps := [("ad_compat", "true")] }
      7 7 5 5 0 (by decide) (by decide) (by decide) (by decide)).2.2.1
        (by rintro ⟨val, hv, ht⟩; cases hv; exact absurd ht (by decide))⟩

end GoSasl
